import Mathlib

set_option maxRecDepth 8192

/-!
Shallow embedding of `src/server.js`, a minimal Express contact-form backend.

The server is glue around well-known middleware libraries; the embedding
models the server's own code faithfully and, where the behaviour of a
dependency decides a property (express-validator / validator.js rules,
express-rate-limit counting, express.json's byte limit, the cors package's
origin matching), models that dependency's documented default behaviour
with a doc comment naming it.

Strings are modelled as Lean `String` (a list of characters); request
bodies carry the four contact fields as present strings (an absent field
behaves like the empty string for every rule involved here).
-/

/-- Characters stripped by the JavaScript string trim used by the
validator chain (the ASCII whitespace class). -/
def jsWhitespace (c : Char) : Bool :=
  c == ' ' || c == '\t' || c == '\n' || c == '\r' || c == '\x0b' || c == '\x0c'

/-- JavaScript-style trim: strip whitespace from both ends.
Models the `.trim()` sanitizer of the validation chains. -/
def jsTrim (s : String) : String :=
  String.mk (((s.toList.dropWhile jsWhitespace).reverse.dropWhile jsWhitespace).reverse)

/-- String length as the validator's length check sees it
(code-unit count; identical to character count on the ASCII inputs here). -/
def jsLength (s : String) : Nat :=
  s.toList.length

/-- Modelled from the dependency: validator.js `escape` replaces each of the
eight characters below by its HTML entity (the sequential regex replaces in
the library are equivalent to this character-wise map, since no replacement
string contains a later-replaced character). -/
def escapeChar (c : Char) : List Char :=
  if c == '&' then "&amp;".toList
  else if c == '"' then "&quot;".toList
  else if c == '\'' then "&#x27;".toList
  else if c == '<' then "&lt;".toList
  else if c == '>' then "&gt;".toList
  else if c == '/' then "&#x2F;".toList
  else if c == '\\' then "&#x5C;".toList
  else if c == Char.ofNat 96 then "&#96;".toList
  else [c]

/-- HTML-escape a string; the `.escape()` sanitizer of the chains. -/
def escape (s : String) : String :=
  String.mk (s.toList.flatMap escapeChar)

/-- Split a character list at every occurrence of a separator character. -/
def splitOnChar (sep : Char) : List Char → List (List Char)
  | [] => [[]]
  | c :: cs =>
    let rest := splitOnChar sep cs
    if c == sep then [] :: rest
    else
      match rest with
      | [] => [[c]]
      | r :: rs => (c :: r) :: rs

/-- Modelled from the dependency: validator.js `isEmail` with default
options, restricted to the unquoted ASCII grammar: exactly one at sign, a
nonempty local part of at most 64 permitted characters, and a dotted
domain whose labels are nonempty alphanumeric-or-hyphen with an alphabetic
top-level label of length at least two. -/
def isEmail (s : String) : Bool :=
  match splitOnChar '@' s.toList with
  | [localPart, domain] =>
    localPart ≠ [] && localPart.length ≤ 64 &&
    localPart.all (fun c =>
      c.isAlphanum || c == '.' || c == '_' || c == '%' || c == '+' || c == '-') &&
    (let parts := splitOnChar '.' domain
     parts.length ≥ 2 &&
     parts.all (fun p => p ≠ [] && p.all (fun c => c.isAlphanum || c == '-')) &&
     (match parts.getLast? with
      | some tld => tld.length ≥ 2 && tld.all Char.isAlpha
      | none => false))
  | _ => false

/-- Modelled from the dependency: validator.js `normalizeEmail` with default
options, for the general and gmail cases exercised here: the address is
lowercased; for a gmail/googlemail domain the dots and any subaddress are
removed from the local part and the domain becomes `gmail.com`.
(Other provider-specific defaults are not modelled.) -/
def normalizeEmail (s : String) : String :=
  match splitOnChar '@' s.toList with
  | [localPart, domain] =>
    let d := String.mk (domain.map Char.toLower)
    let l := localPart.map Char.toLower
    if d == "gmail.com" || d == "googlemail.com" then
      String.mk ((l.takeWhile (fun c => c != '+')).filter (fun c => c != '.'))
        ++ "@gmail.com"
    else
      String.mk l ++ "@" ++ d
  | _ => String.mk (s.toList.map Char.toLower)

/-- One entry of the validator's error list, projecting the
`path` (field name), `msg` and `value` keys of an express-validator
field error. -/
structure FieldError where
  path : String
  msg : String
  value : String
deriving Repr, DecidableEq

/-- The default message express-validator attaches to a failed rule. -/
def invalidMsg : String := "Invalid value"

/-- The four raw (or, after validation, sanitized) contact fields of a
request body. -/
structure ContactRequest where
  name : String
  email : String
  subject : String
  message : String
deriving Repr, DecidableEq

/-- The name rule passes iff the trimmed name has length in [2,100]
(`isLength` with min 2, max 100, checked on the trimmed value). -/
def nameOk (v : String) : Bool :=
  decide (2 ≤ jsLength (jsTrim v)) && decide (jsLength (jsTrim v) ≤ 100)

/-- The email rule is `isEmail` on the raw value (no trim in this chain). -/
def emailOk (v : String) : Bool :=
  isEmail v

/-- The subject rule passes iff the trimmed subject has length at most 200
(`isLength` with max 200; the minimum defaults to 0). -/
def subjectOk (v : String) : Bool :=
  decide (jsLength (jsTrim v) ≤ 200)

/-- The message rule passes iff the trimmed message has length at most 2000. -/
def messageOk (v : String) : Bool :=
  decide (jsLength (jsTrim v) ≤ 2000)

/-- Chain `body('name').trim().isLength({min:2,max:100}).escape()`:
trim, then validate the trimmed value (recording a field error whose value
is the trimmed, pre-escape string on failure), then escape regardless —
sanitizers run even after a failed validator. -/
def runNameChain (v : String) : String × List FieldError :=
  (escape (jsTrim v),
   if nameOk v then [] else [⟨"name", invalidMsg, jsTrim v⟩])

/-- Chain `body('email').isEmail().normalizeEmail()`: validate the raw
value, then normalize it regardless. -/
def runEmailChain (v : String) : String × List FieldError :=
  (normalizeEmail v,
   if emailOk v then [] else [⟨"email", invalidMsg, v⟩])

/-- Chain `body('subject').trim().isLength({max:200}).escape()`. -/
def runSubjectChain (v : String) : String × List FieldError :=
  (escape (jsTrim v),
   if subjectOk v then [] else [⟨"subject", invalidMsg, jsTrim v⟩])

/-- Chain `body('message').trim().isLength({max:2000}).escape()`. -/
def runMessageChain (v : String) : String × List FieldError :=
  (escape (jsTrim v),
   if messageOk v then [] else [⟨"message", invalidMsg, jsTrim v⟩])

/-- The `contactValidation` middleware array: all four chains run on every
request (no bail), each sanitizing its field in place in the body;
`validationResult(req).array()` collects their field errors in chain order. -/
def contactValidation (b : ContactRequest) : ContactRequest × List FieldError :=
  let rn := runNameChain b.name
  let re := runEmailChain b.email
  let rs := runSubjectChain b.subject
  let rm := runMessageChain b.message
  (⟨rn.fst, re.fst, rs.fst, rm.fst⟩, rn.snd ++ re.snd ++ rs.snd ++ rm.snd)

/-- The field names carried by the validator's error list for a body. -/
def errorPaths (b : ContactRequest) : List String :=
  (contactValidation b).snd.map FieldError.path

/-- Options of the `limiter` middleware: 100 requests per 15-minute
window, with its fixed rejection message. -/
structure RateLimitOptions where
  windowMs : Nat
  max : Nat
  message : String
deriving Repr, DecidableEq

/-- `rateLimit({ windowMs: 15*60*1000, max: 100, message: ... })`. -/
def limiter : RateLimitOptions :=
  { windowMs := 15 * 60 * 1000
  , max := 100
  , message := "Too many requests. Please try again later." }

/-- Modelled from the dependency: express-rate-limit increments the
client's in-window hit counter on every request and rejects once the new
total exceeds `max` — request number `count + 1` is admitted iff
`count + 1 ≤ max`. Returns the new counter and whether the request is
passed downstream. -/
def limiterStep (count : Nat) : Nat × Bool :=
  (count + 1, decide (count + 1 ≤ limiter.max))

/-- The hit counter a single client has accumulated after `n` requests
inside one rate-limit window. -/
def countAfter : Nat → Nat
  | 0 => 0
  | n + 1 => (limiterStep (countAfter n)).fst

/-- Modelled from the dependency: `express.json({ limit: '10kb' })` parses
`'10kb'` as 10 * 1024 bytes and rejects any larger body before it reaches
the validator. -/
def jsonLimitBytes : Nat := 10 * 1024

/-- The configured CORS origin allow-list: `allowedOrigins = ['*']`. -/
def allowedOrigins : List String := ["*"]

/-- Modelled from the dependency: when the cors package is configured with
an array of origins, a string entry matches the request's declared origin
by string equality (regular-expression entries, not used here, match by
test); the origin is admitted iff some entry matches. -/
def isOriginAllowed (origin : String) (allowed : List String) : Bool :=
  allowed.any (fun a => origin == a)

/-- The fixed success message of the 200 response. -/
def successMessage : String := "Your message has been sent successfully!"

/-- The fixed generic error message of the 500 response. -/
def failureMessage : String := "Message failed to send. Please try again later."

/-- Response bodies the server can produce, by JSON shape:
a validation-error list, a success body with a `success: true` flag and a
`message` key, a failure body with a `success: false` flag and an `error`
key (used both by the handler's send-failure path and by the fallback
error middleware), the rate limiter's plain-text message, and the health
payload with exactly a status string, a service identity string and a
timestamp. -/
inductive RespBody where
  | fieldErrors (errs : List FieldError)
  | successMsg (message : String)
  | errorMsg (errorText : String)
  | rateLimited (message : String)
  | health (status service timestamp : String)
deriving Repr, DecidableEq

/-- An HTTP response: status code and body. -/
structure Response where
  status : Nat
  body : RespBody
deriving Repr, DecidableEq

/-- The fixed body text of the fallback error middleware's response. -/
def internalErrorMessage : String := "Internal Server Error"

/-- The app's error-handling middleware (section 6 of `server.js`): any
error passed down the pipeline — including body-parser's 413
payload-too-large error — is logged and answered with 500 and the fixed
generic body, whatever the error was. -/
def errorHandler (_err : String) : Response :=
  ⟨500, .errorMsg internalErrorMessage⟩

/-- The argument object of `transporter.sendMail` in the handler. -/
structure Mail where
  fromAddr : String
  toAddr : String
  replyTo : String
  subject : String
  html : String
  headers : List (String × String)
deriving Repr, DecidableEq

/-- Replace each newline by an HTML line break:
`message.replace(/\n/g, '<br>')`. -/
def replaceNewlines (s : String) : String :=
  String.mk (s.toList.flatMap (fun c => if c == '\n' then "<br>".toList else [c]))

/-- The HTML body of the outgoing mail, built from the sanitized fields and
the send timestamp (the template literal's insignificant indentation is
elided). -/
def mailHtml (now : String) (b : ContactRequest) : String :=
  "<div style=\"font-family: Arial, sans-serif;\">" ++
  "<h2>Contact Form Submission</h2>" ++
  "<p><strong>From:</strong> " ++ b.name ++ " (" ++ b.email ++ ")</p>" ++
  "<p><strong>Subject:</strong> " ++ b.subject ++ "</p>" ++
  "<div style=\"margin-top: 20px; padding: 10px; border: 1px solid #eee;\">" ++
  replaceNewlines b.message ++
  "</div>" ++
  "<p style=\"color: #666; margin-top: 20px;\">Sent via Gussy Contact Form at " ++
  now ++ "</p>" ++
  "</div>"

/-- The mail the handler passes to `transporter.sendMail`, from the
sanitized body `b`, the `EMAIL_USER` environment value and the send
timestamp. -/
def mkMail (emailUser now : String) (b : ContactRequest) : Mail :=
  { fromAddr := "\"Gussy Contact\" <" ++ emailUser ++ ">"
  , toAddr := "saadnadeem962@gmail.com"
  , replyTo := b.email
  , subject := "New Contact: " ++ b.subject
  , html := mailHtml now b
  , headers := [("X-Priority", "1"), ("X-Mailer", "Gussy Contact Server")] }

/-- The `POST /contact` pipeline: the rate limiter (mounted first on the
route) counts the request and rejects over-quota clients with its message;
`express.json` rejects bodies over 10kb by passing its 413
payload-too-large error down the pipeline, where the app's error
middleware answers it with the generic 500 body; the validation chains run
and a nonempty error list yields 400 with `errors.array()`; otherwise one
send is attempted with the sanitized body — 200 with the fixed success
body when the transport accepts, 500 with the fixed generic body when it
throws. `send` is the outcome the transporter produces for a send attempt
(the thrown error's message when it rejects); the result is the new hit
counter, the response, and the list of attempted sends. -/
def contactRoute (count : Nat) (bodySize : Nat) (req : ContactRequest)
    (send : Except String Unit) (emailUser now : String) :
    Nat × Response × List Mail :=
  let step := limiterStep count
  if !step.snd then
    (step.fst, ⟨429, .rateLimited limiter.message⟩, [])
  else if jsonLimitBytes < bodySize then
    (step.fst, errorHandler "request entity too large", [])
  else
    let v := contactValidation req
    if v.snd ≠ [] then
      (step.fst, ⟨400, .fieldErrors v.snd⟩, [])
    else
      let m := mkMail emailUser now v.fst
      match send with
      | .ok _ => (step.fst, ⟨200, .successMsg successMessage⟩, [m])
      | .error _ => (step.fst, ⟨500, .errorMsg failureMessage⟩, [m])

/-- The `GET /` health handler: a static 200 payload built only from the
current time. -/
def healthHandler (now : String) : Response :=
  ⟨200, .health "healthy" "Gussy Contact API" now⟩

/-- Transport-relevant server environment: the configured mail account and
the outcome the transporter currently produces for a send attempt. -/
structure ServerEnv where
  emailUser : String
  send : Except String Unit
deriving Repr

/-- The routes a request can hit. -/
inductive RequestIn where
  | contact (bodySize : Nat) (body : ContactRequest)
  | root
deriving Repr, DecidableEq

/-- Dispatch a request to its route: `/contact` runs the full pipeline
(and updates the client's hit counter), `/` answers the health payload
without touching the transport or the counter. -/
def handleRequest (env : ServerEnv) (now : String) (count : Nat) :
    RequestIn → Nat × Response × List Mail
  | .contact sz b => contactRoute count sz b env.send env.emailUser now
  | .root => (count, healthHandler now, [])

/-! ### Helper lemmas about the validation chains and the pipeline -/

theorem contactValidation_snd (b : ContactRequest) :
    (contactValidation b).snd =
      (if nameOk b.name then [] else [⟨"name", invalidMsg, jsTrim b.name⟩]) ++
      (if emailOk b.email then [] else [⟨"email", invalidMsg, b.email⟩]) ++
      (if subjectOk b.subject then [] else [⟨"subject", invalidMsg, jsTrim b.subject⟩]) ++
      (if messageOk b.message then [] else [⟨"message", invalidMsg, jsTrim b.message⟩]) :=
  rfl

theorem contactValidation_fst (b : ContactRequest) :
    (contactValidation b).fst =
      ⟨escape (jsTrim b.name), normalizeEmail b.email,
       escape (jsTrim b.subject), escape (jsTrim b.message)⟩ :=
  rfl

theorem errorPaths_eq (b : ContactRequest) :
    errorPaths b =
      (if nameOk b.name then [] else ["name"]) ++
      (if emailOk b.email then [] else ["email"]) ++
      (if subjectOk b.subject then [] else ["subject"]) ++
      (if messageOk b.message then [] else ["message"]) := by
  rw [errorPaths, contactValidation_snd]
  cases nameOk b.name <;> cases emailOk b.email <;>
    cases subjectOk b.subject <;> cases messageOk b.message <;> simp

theorem contactValidation_snd_nil_iff (b : ContactRequest) :
    (contactValidation b).snd = [] ↔
      (nameOk b.name = true ∧ emailOk b.email = true ∧
       subjectOk b.subject = true ∧ messageOk b.message = true) := by
  rw [contactValidation_snd]
  cases nameOk b.name <;> cases emailOk b.email <;>
    cases subjectOk b.subject <;> cases messageOk b.message <;> simp

theorem contactRoute_rateLimited (count sz : Nat) (req : ContactRequest)
    (send : Except String Unit) (eu now : String)
    (hFull : limiter.max < count + 1) :
    contactRoute count sz req send eu now =
      (count + 1, ⟨429, .rateLimited limiter.message⟩, []) := by
  have h : decide (count + 1 ≤ limiter.max) = false := by
    simp [decide_eq_false_iff_not]
    omega
  simp [contactRoute, limiterStep, h]

theorem contactRoute_tooLarge (count sz : Nat) (req : ContactRequest)
    (send : Except String Unit) (eu now : String)
    (hAdm : count + 1 ≤ limiter.max) (hBig : jsonLimitBytes < sz) :
    contactRoute count sz req send eu now =
      (count + 1, errorHandler "request entity too large", []) := by
  have h : decide (count + 1 ≤ limiter.max) = true := decide_eq_true hAdm
  simp [contactRoute, limiterStep, h, hBig]

theorem contactRoute_invalid (count sz : Nat) (req : ContactRequest)
    (send : Except String Unit) (eu now : String)
    (hAdm : count + 1 ≤ limiter.max) (hSz : sz ≤ jsonLimitBytes)
    (hInv : (contactValidation req).snd ≠ []) :
    contactRoute count sz req send eu now =
      (count + 1, ⟨400, .fieldErrors (contactValidation req).snd⟩, []) := by
  have h : decide (count + 1 ≤ limiter.max) = true := decide_eq_true hAdm
  simp [contactRoute, limiterStep, h, Nat.not_lt.mpr hSz, hInv]

theorem contactRoute_sendOk (count sz : Nat) (req : ContactRequest)
    (eu now : String)
    (hAdm : count + 1 ≤ limiter.max) (hSz : sz ≤ jsonLimitBytes)
    (hValid : (contactValidation req).snd = []) :
    contactRoute count sz req (Except.ok ()) eu now =
      (count + 1, ⟨200, .successMsg successMessage⟩,
       [mkMail eu now (contactValidation req).fst]) := by
  have h : decide (count + 1 ≤ limiter.max) = true := decide_eq_true hAdm
  simp [contactRoute, limiterStep, h, Nat.not_lt.mpr hSz, hValid]

theorem contactRoute_sendFail (count sz : Nat) (req : ContactRequest)
    (e : String) (eu now : String)
    (hAdm : count + 1 ≤ limiter.max) (hSz : sz ≤ jsonLimitBytes)
    (hValid : (contactValidation req).snd = []) :
    contactRoute count sz req (Except.error e) eu now =
      (count + 1, ⟨500, .errorMsg failureMessage⟩,
       [mkMail eu now (contactValidation req).fst]) := by
  have h : decide (count + 1 ≤ limiter.max) = true := decide_eq_true hAdm
  simp [contactRoute, limiterStep, h, Nat.not_lt.mpr hSz, hValid]

theorem countAfter_eq (n : Nat) : countAfter n = n := by
  induction n with
  | zero => rfl
  | succ k ih => simp [countAfter, limiterStep, ih]

/-- A fully valid sample submission used to instantiate witnesses. -/
def sampleReq : ContactRequest :=
  ⟨"John Doe", "john@example.com", "Hi there", "Hello world"⟩

/-- A sample submission whose name and email both violate their rules. -/
def badReq : ContactRequest :=
  ⟨"a", "not-an-email", "Hi", "Hello"⟩

/-! ### Claim theorems -/

/-- C1: for every submission in which all four fields pass their validation
rules and the mail transport accepts the send, the handler responds 200
with the fixed body (success flag and fixed success message), exactly one
send is attempted, the send's reply-to equals the submission's email (the
sanitized form of the submitted email, which is what the handler reads
from the body after validation), and the recipient is the fixed address
`saadnadeem962@gmail.com`. -/
theorem c1_valid_submission_success (count sz : Nat) (req : ContactRequest)
    (eu now : String)
    (hAdm : count + 1 ≤ limiter.max) (hSz : sz ≤ jsonLimitBytes)
    (hValid : (contactValidation req).snd = []) :
    contactRoute count sz req (Except.ok ()) eu now =
      (count + 1, ⟨200, .successMsg successMessage⟩,
       [mkMail eu now (contactValidation req).fst])
    ∧ successMessage = "Your message has been sent successfully!"
    ∧ (contactRoute count sz req (Except.ok ()) eu now).2.2.length = 1
    ∧ (mkMail eu now (contactValidation req).fst).replyTo =
        (contactValidation req).fst.email
    ∧ (contactValidation req).fst.email = normalizeEmail req.email
    ∧ (mkMail eu now (contactValidation req).fst).toAddr =
        "saadnadeem962@gmail.com" := by
  refine ⟨contactRoute_sendOk count sz req eu now hAdm hSz hValid, rfl, ?_, rfl, rfl, rfl⟩
  rw [contactRoute_sendOk count sz req eu now hAdm hSz hValid]
  rfl

/-- Witness for C1 at a concrete valid submission. -/
theorem c1_witness :
    ((0 : Nat) + 1 ≤ limiter.max ∧ (10 : Nat) ≤ jsonLimitBytes ∧
      (contactValidation sampleReq).snd = []) ∧
    (contactRoute 0 10 sampleReq (Except.ok ()) "u@gmail.com" "now" =
      (1, ⟨200, .successMsg successMessage⟩,
       [mkMail "u@gmail.com" "now" (contactValidation sampleReq).fst])
    ∧ successMessage = "Your message has been sent successfully!"
    ∧ (contactRoute 0 10 sampleReq (Except.ok ()) "u@gmail.com" "now").2.2.length = 1
    ∧ (mkMail "u@gmail.com" "now" (contactValidation sampleReq).fst).replyTo =
        (contactValidation sampleReq).fst.email
    ∧ (contactValidation sampleReq).fst.email = normalizeEmail sampleReq.email
    ∧ (mkMail "u@gmail.com" "now" (contactValidation sampleReq).fst).toAddr =
        "saadnadeem962@gmail.com") :=
  ⟨⟨by decide, by decide, by decide⟩,
   c1_valid_submission_success 0 10 sampleReq "u@gmail.com" "now"
     (by decide) (by decide) (by decide)⟩

/-- C2: for every request in which at least one of the four fields violates
its rule, the handler responds 400 with the structured field-error list,
the list is nonempty and names every violating field, and no send is
attempted. -/
theorem c2_invalid_submission_rejected (count sz : Nat) (req : ContactRequest)
    (send : Except String Unit) (eu now : String)
    (hAdm : count + 1 ≤ limiter.max) (hSz : sz ≤ jsonLimitBytes)
    (hInv : ¬ (nameOk req.name = true ∧ emailOk req.email = true ∧
               subjectOk req.subject = true ∧ messageOk req.message = true)) :
    contactRoute count sz req send eu now =
      (count + 1, ⟨400, .fieldErrors (contactValidation req).snd⟩, [])
    ∧ (contactValidation req).snd ≠ []
    ∧ (nameOk req.name = false → "name" ∈ errorPaths req)
    ∧ (emailOk req.email = false → "email" ∈ errorPaths req)
    ∧ (subjectOk req.subject = false → "subject" ∈ errorPaths req)
    ∧ (messageOk req.message = false → "message" ∈ errorPaths req) := by
  have hne : (contactValidation req).snd ≠ [] := fun h =>
    hInv ((contactValidation_snd_nil_iff req).mp h)
  refine ⟨contactRoute_invalid count sz req send eu now hAdm hSz hne, hne,
    ?_, ?_, ?_, ?_⟩ <;>
    intro h <;> rw [errorPaths_eq] <;> simp [h]

/-- Witness for C2 at a concrete request with an invalid name and email. -/
theorem c2_witness :
    ((0 : Nat) + 1 ≤ limiter.max ∧ (10 : Nat) ≤ jsonLimitBytes ∧
      ¬ (nameOk badReq.name = true ∧ emailOk badReq.email = true ∧
         subjectOk badReq.subject = true ∧ messageOk badReq.message = true)) ∧
    (contactRoute 0 10 badReq (Except.ok ()) "u@gmail.com" "now" =
      (1, ⟨400, .fieldErrors (contactValidation badReq).snd⟩, [])
    ∧ (contactValidation badReq).snd ≠ []
    ∧ (nameOk badReq.name = false → "name" ∈ errorPaths badReq)
    ∧ (emailOk badReq.email = false → "email" ∈ errorPaths badReq)
    ∧ (subjectOk badReq.subject = false → "subject" ∈ errorPaths badReq)
    ∧ (messageOk badReq.message = false → "message" ∈ errorPaths badReq)) :=
  ⟨⟨by decide, by decide, by decide⟩,
   c2_invalid_submission_rejected 0 10 badReq (Except.ok ()) "u@gmail.com" "now"
     (by decide) (by decide) (by decide)⟩

/-- C3: the name rule accepts exactly the names whose trimmed length lies
in [2,100]; trimmed length 1 or 101 is rejected with a 400 response whose
error list names the name field, trimmed length 2 or 100 passes the rule. -/
theorem c3_name_length_boundaries (count sz : Nat) (req : ContactRequest)
    (send : Except String Unit) (eu now : String)
    (hAdm : count + 1 ≤ limiter.max) (hSz : sz ≤ jsonLimitBytes) :
    (∀ v : String, nameOk v = true ↔
        (2 ≤ jsLength (jsTrim v) ∧ jsLength (jsTrim v) ≤ 100))
    ∧ (jsLength (jsTrim req.name) = 2 ∨ jsLength (jsTrim req.name) = 100 →
        nameOk req.name = true)
    ∧ (jsLength (jsTrim req.name) = 1 ∨ jsLength (jsTrim req.name) = 101 →
        nameOk req.name = false
        ∧ (contactRoute count sz req send eu now).2.1 =
            ⟨400, .fieldErrors (contactValidation req).snd⟩
        ∧ "name" ∈ errorPaths req) := by
  refine ⟨?_, ?_, ?_⟩
  · intro v
    simp [nameOk]
  · intro h
    simp only [nameOk, Bool.and_eq_true, decide_eq_true_eq]
    omega
  · intro h
    have hn : nameOk req.name = false := by
      simp only [nameOk, Bool.and_eq_false_iff, decide_eq_false_iff_not]
      omega
    have hne : (contactValidation req).snd ≠ [] := by
      rw [contactValidation_snd, hn]
      simp
    refine ⟨hn, ?_, ?_⟩
    · rw [contactRoute_invalid count sz req send eu now hAdm hSz hne]
    · rw [errorPaths_eq]
      simp [hn]

/-- Witness for C3 at a name of trimmed length 1. -/
theorem c3_witness :
    ((0 : Nat) + 1 ≤ limiter.max ∧ (10 : Nat) ≤ jsonLimitBytes ∧
      (jsLength (jsTrim badReq.name) = 1 ∨ jsLength (jsTrim badReq.name) = 101)) ∧
    (nameOk badReq.name = false
    ∧ (contactRoute 0 10 badReq (Except.ok ()) "u@gmail.com" "now").2.1 =
        ⟨400, .fieldErrors (contactValidation badReq).snd⟩
    ∧ "name" ∈ errorPaths badReq) :=
  ⟨⟨by decide, by decide, by decide⟩,
   (c3_name_length_boundaries 0 10 badReq (Except.ok ()) "u@gmail.com" "now"
     (by decide) (by decide)).2.2 (Or.inl (by decide))⟩

/-- C4: for every valid submission where the transport throws, the handler
responds 500 with the fixed generic body, and the response is the same
whatever the underlying transport error was — no information from it
appears in the response. -/
theorem c4_send_failure_generic_500 (count sz : Nat) (req : ContactRequest)
    (e eu now : String)
    (hAdm : count + 1 ≤ limiter.max) (hSz : sz ≤ jsonLimitBytes)
    (hValid : (contactValidation req).snd = []) :
    contactRoute count sz req (Except.error e) eu now =
      (count + 1, ⟨500, .errorMsg failureMessage⟩,
       [mkMail eu now (contactValidation req).fst])
    ∧ failureMessage = "Message failed to send. Please try again later."
    ∧ (∀ e' : String, contactRoute count sz req (Except.error e') eu now =
        contactRoute count sz req (Except.error e) eu now) := by
  refine ⟨contactRoute_sendFail count sz req e eu now hAdm hSz hValid, rfl, ?_⟩
  intro e'
  rw [contactRoute_sendFail count sz req e' eu now hAdm hSz hValid,
      contactRoute_sendFail count sz req e eu now hAdm hSz hValid]

/-- Witness for C4 at a concrete valid submission and transport error. -/
theorem c4_witness :
    ((0 : Nat) + 1 ≤ limiter.max ∧ (10 : Nat) ≤ jsonLimitBytes ∧
      (contactValidation sampleReq).snd = []) ∧
    (contactRoute 0 10 sampleReq (Except.error "SMTP connection refused")
        "u@gmail.com" "now" =
      (1, ⟨500, .errorMsg failureMessage⟩,
       [mkMail "u@gmail.com" "now" (contactValidation sampleReq).fst])
    ∧ failureMessage = "Message failed to send. Please try again later."
    ∧ (∀ e' : String,
        contactRoute 0 10 sampleReq (Except.error e') "u@gmail.com" "now" =
        contactRoute 0 10 sampleReq (Except.error "SMTP connection refused")
          "u@gmail.com" "now")) :=
  ⟨⟨by decide, by decide, by decide⟩,
   c4_send_failure_generic_500 0 10 sampleReq "SMTP connection refused"
     "u@gmail.com" "now" (by decide) (by decide) (by decide)⟩

/-- C5: the limiter allows 100 requests per client per 15-minute window;
each of the first 100 requests is admitted, and with 100 hits already
counted the 101st request receives the 429 rate-limit response with the
fixed message, no send is attempted, and neither the body nor the
transport outcome is consulted. -/
theorem c5_rate_limit_101st_rejected :
    limiter.windowMs = 15 * 60 * 1000
    ∧ limiter.max = 100
    ∧ (∀ n : Nat, n < 100 → (limiterStep (countAfter n)).snd = true)
    ∧ (∀ (sz : Nat) (req : ContactRequest) (send : Except String Unit)
        (eu now : String),
        contactRoute (countAfter 100) sz req send eu now =
          (101, ⟨429,
            .rateLimited "Too many requests. Please try again later."⟩, [])) := by
  refine ⟨rfl, rfl, ?_, ?_⟩
  · intro n hn
    simp only [limiterStep, countAfter_eq, decide_eq_true_eq, limiter]
    omega
  · intro sz req send eu now
    rw [countAfter_eq]
    exact contactRoute_rateLimited 100 sz req send eu now (by decide)

/-- Witness for C5: the 100th request is admitted and the 101st rejected,
at a concrete request. -/
theorem c5_witness :
    ((99 : Nat) < 100 ∧ (limiterStep (countAfter 99)).snd = true) ∧
    contactRoute (countAfter 100) 10 sampleReq (Except.ok ()) "u@gmail.com" "now" =
      (101, ⟨429, .rateLimited "Too many requests. Please try again later."⟩, []) :=
  ⟨⟨by decide, c5_rate_limit_101st_rejected.2.2.1 99 (by decide)⟩,
   c5_rate_limit_101st_rejected.2.2.2 10 sampleReq (Except.ok ()) "u@gmail.com" "now"⟩

/-- C6 counterexample: the response to a concrete oversized body
(20000 bytes) is not a distinct size-rejection response — it is exactly the
fallback error middleware's generic 500 body, identical to what the
middleware answers to an arbitrary unrelated fault, and carries only the
fixed text `Internal Server Error`. -/
theorem c6_counterexample :
    contactRoute 0 20000 sampleReq (Except.ok ()) "u@gmail.com" "now" =
      (1, errorHandler "request entity too large", [])
    ∧ errorHandler "request entity too large" =
        errorHandler "TypeError: x is undefined"
    ∧ errorHandler "request entity too large" =
        ⟨500, .errorMsg "Internal Server Error"⟩ :=
  ⟨by decide, rfl, rfl⟩

/-- C6 (amended): a request whose body exceeds 10KB (10 * 1024 bytes) is
rejected before any field validation rule runs (the result does not depend
on the body's fields) and no send is attempted; the response is not a 400
field-error body, but it is the fallback error middleware's generic 500
`Internal Server Error` response — the same answer the middleware gives
every unhandled fault — rather than a size-specific rejection. -/
theorem c6_oversized_body_generic_500 (count sz : Nat) (req : ContactRequest)
    (send : Except String Unit) (eu now : String)
    (hAdm : count + 1 ≤ limiter.max) (hBig : jsonLimitBytes < sz) :
    contactRoute count sz req send eu now =
      (count + 1, errorHandler "request entity too large", [])
    ∧ errorHandler "request entity too large" =
        ⟨500, .errorMsg internalErrorMessage⟩
    ∧ internalErrorMessage = "Internal Server Error"
    ∧ jsonLimitBytes = 10 * 1024
    ∧ (∀ req' : ContactRequest, contactRoute count sz req' send eu now =
        contactRoute count sz req send eu now)
    ∧ (∀ errs : List FieldError,
        RespBody.errorMsg internalErrorMessage ≠ RespBody.fieldErrors errs)
    ∧ (∀ e : String, errorHandler e = errorHandler "request entity too large") := by
  refine ⟨contactRoute_tooLarge count sz req send eu now hAdm hBig, rfl, rfl, rfl,
    ?_, ?_, ?_⟩
  · intro req'
    rw [contactRoute_tooLarge count sz req' send eu now hAdm hBig,
        contactRoute_tooLarge count sz req send eu now hAdm hBig]
  · intro errs h
    exact RespBody.noConfusion h
  · intro e
    rfl

/-- Witness for the amended C6 at a concrete oversized request. -/
theorem c6_witness :
    ((0 : Nat) + 1 ≤ limiter.max ∧ jsonLimitBytes < 20000) ∧
    (contactRoute 0 20000 sampleReq (Except.ok ()) "u@gmail.com" "now" =
      (1, errorHandler "request entity too large", [])
    ∧ errorHandler "request entity too large" =
        ⟨500, .errorMsg internalErrorMessage⟩
    ∧ internalErrorMessage = "Internal Server Error"
    ∧ jsonLimitBytes = 10 * 1024
    ∧ (∀ req' : ContactRequest,
        contactRoute 0 20000 req' (Except.ok ()) "u@gmail.com" "now" =
        contactRoute 0 20000 sampleReq (Except.ok ()) "u@gmail.com" "now")
    ∧ (∀ errs : List FieldError,
        RespBody.errorMsg internalErrorMessage ≠ RespBody.fieldErrors errs)
    ∧ (∀ e : String,
        errorHandler e = errorHandler "request entity too large")) :=
  ⟨⟨by decide, by decide⟩,
   c6_oversized_body_generic_500 0 20000 sampleReq (Except.ok ()) "u@gmail.com" "now"
     (by decide) (by decide)⟩

/-- C7: validation is exhaustive and all-or-nothing — every one of the four
rules is evaluated on every request and every violated rule contributes its
entry to the error list at once; the error list is empty exactly when all
four rules pass; the sanitized record is the four fields in normalized
(trimmed, escaped, email-normalized) form; a request with any violation is
rejected wholesale with the full list and no send, and an accepted request
is consumed with all four fields normalized. -/
theorem c7_validation_all_or_nothing (req : ContactRequest) :
    errorPaths req =
      (if nameOk req.name then [] else ["name"]) ++
      (if emailOk req.email then [] else ["email"]) ++
      (if subjectOk req.subject then [] else ["subject"]) ++
      (if messageOk req.message then [] else ["message"])
    ∧ ((contactValidation req).snd = [] ↔
        (nameOk req.name = true ∧ emailOk req.email = true ∧
         subjectOk req.subject = true ∧ messageOk req.message = true))
    ∧ (contactValidation req).fst =
        ⟨escape (jsTrim req.name), normalizeEmail req.email,
         escape (jsTrim req.subject), escape (jsTrim req.message)⟩
    ∧ (∀ (count sz : Nat) (send : Except String Unit) (eu now : String),
        count + 1 ≤ limiter.max → sz ≤ jsonLimitBytes →
        (contactValidation req).snd ≠ [] →
        contactRoute count sz req send eu now =
          (count + 1, ⟨400, .fieldErrors (contactValidation req).snd⟩, []))
    ∧ (∀ (count sz : Nat) (send : Except String Unit) (eu now : String),
        count + 1 ≤ limiter.max → sz ≤ jsonLimitBytes →
        (contactValidation req).snd = [] →
        (contactRoute count sz req send eu now).2.2 =
          [mkMail eu now
            ⟨escape (jsTrim req.name), normalizeEmail req.email,
             escape (jsTrim req.subject), escape (jsTrim req.message)⟩]) := by
  refine ⟨errorPaths_eq req, contactValidation_snd_nil_iff req,
    contactValidation_fst req, ?_, ?_⟩
  · intro count sz send eu now hAdm hSz hInv
    exact contactRoute_invalid count sz req send eu now hAdm hSz hInv
  · intro count sz send eu now hAdm hSz hValid
    cases send with
    | ok u =>
      cases u
      rw [contactRoute_sendOk count sz req eu now hAdm hSz hValid,
          ← contactValidation_fst req]
    | error e =>
      rw [contactRoute_sendFail count sz req e eu now hAdm hSz hValid,
          ← contactValidation_fst req]

/-- Witness for C7 at a request violating two rules at once: both fields
are reported together and the request is rejected wholesale. -/
theorem c7_witness :
    errorPaths badReq = ["name", "email"] ∧
    ((0 : Nat) + 1 ≤ limiter.max ∧ (10 : Nat) ≤ jsonLimitBytes ∧
      (contactValidation badReq).snd ≠ []) ∧
    contactRoute 0 10 badReq (Except.ok ()) "u@gmail.com" "now" =
      (1, ⟨400, .fieldErrors (contactValidation badReq).snd⟩, []) :=
  ⟨by rw [(c7_validation_all_or_nothing badReq).1]; decide,
   ⟨by decide, by decide, by decide⟩,
   (c7_validation_all_or_nothing badReq).2.2.2.1 0 10 (Except.ok ())
     "u@gmail.com" "now" (by decide) (by decide) (by decide)⟩

/-- C8: `GET /` always returns 200 with exactly a liveness status string, a
service identity string and the current server timestamp, independently of
the transport environment (mail account and transport outcome). -/
theorem c8_health_always_200 (env env' : ServerEnv) (now : String) (count : Nat) :
    handleRequest env now count .root =
      (count, ⟨200, .health "healthy" "Gussy Contact API" now⟩, [])
    ∧ handleRequest env now count .root = handleRequest env' now count .root :=
  ⟨rfl, rfl⟩

/-- C9 counterexample: it is not the case that every declared origin is
admitted by the origin check — the configured allow-list `['*']` matches
by string equality, so the concrete origin `https://example.com` is not
admitted. -/
theorem c9_counterexample :
    ¬ (∀ origin : String, isOriginAllowed origin allowedOrigins = true) ∧
    isOriginAllowed "https://example.com" allowedOrigins = false :=
  ⟨fun h => by
      have := h "https://example.com"
      simp [isOriginAllowed, allowedOrigins] at this,
   by decide⟩

/-- C9 (amended): the origin check compares the declared origin against the
allow-list entries by string equality, and with the configured list `['*']`
it admits exactly the literal origin `*` — the wildcard entry is not a
catch-all. -/
theorem c9_origin_literal_match (origin : String) :
    isOriginAllowed origin allowedOrigins = true ↔ origin = "*" := by
  simp [isOriginAllowed, allowedOrigins]

/-- Witness for the amended C9 at the literal origin. -/
theorem c9_witness : isOriginAllowed "*" allowedOrigins = true :=
  (c9_origin_literal_match "*").mpr rfl

/-! ### Lemmas for C10: escaping happens after the length check -/

theorem dropWhile_jsWhitespace_amp (n : Nat) :
    List.dropWhile jsWhitespace (List.replicate n '&') = List.replicate n '&' := by
  cases n with
  | zero => rfl
  | succ k =>
    have h : jsWhitespace '&' = false := by decide
    simp [List.replicate_succ, List.dropWhile_cons, h]

theorem jsTrim_amp (n : Nat) :
    jsTrim (String.mk (List.replicate n '&')) = String.mk (List.replicate n '&') := by
  have h : (String.mk (List.replicate n '&')).toList = List.replicate n '&' := rfl
  rw [jsTrim, h, dropWhile_jsWhitespace_amp, List.reverse_replicate,
      dropWhile_jsWhitespace_amp, List.reverse_replicate]

theorem jsLength_mk (l : List Char) : jsLength (String.mk l) = l.length := rfl

theorem escape_amp_len (n : Nat) :
    jsLength (escape (String.mk (List.replicate n '&'))) = 5 * n := by
  induction n with
  | zero => rfl
  | succ k ih =>
    have h : escapeChar '&' = "&amp;".toList := rfl
    simp only [escape, jsLength, String.toList, List.replicate_succ,
      List.flatMap_cons, List.length_append, h] at ih ⊢
    simp at ih ⊢
    omega

/-- A submission of maximal-length fields made of ampersands: trimmed
lengths are exactly at the caps, so each length rule passes. -/
def ampReq : ContactRequest :=
  ⟨String.mk (List.replicate 100 '&'), "john@example.com",
   String.mk (List.replicate 200 '&'), String.mk (List.replicate 2000 '&')⟩

/-- C10: in the name, subject and message chains the HTML-escape runs after
the length check, so the bounds constrain only the trimmed pre-escape
value: the ampersand submission passes validation (trimmed lengths exactly
100, 200 and 2000), yet the normalized values the handler and the outgoing
mail see have lengths 500, 1000 and 10000 — beyond the stated caps. -/
theorem c10_escape_after_length_check :
    (contactValidation ampReq).snd = []
    ∧ jsLength (jsTrim ampReq.name) = 100
    ∧ jsLength (jsTrim ampReq.subject) = 200
    ∧ jsLength (jsTrim ampReq.message) = 2000
    ∧ jsLength (contactValidation ampReq).fst.name = 500
    ∧ jsLength (contactValidation ampReq).fst.subject = 1000
    ∧ jsLength (contactValidation ampReq).fst.message = 10000
    ∧ 100 < 500 ∧ 200 < 1000 ∧ 2000 < 10000 := by
  have hName : jsTrim ampReq.name = String.mk (List.replicate 100 '&') :=
    jsTrim_amp 100
  have hSubj : jsTrim ampReq.subject = String.mk (List.replicate 200 '&') :=
    jsTrim_amp 200
  have hMsg : jsTrim ampReq.message = String.mk (List.replicate 2000 '&') :=
    jsTrim_amp 2000
  have hNameLen : jsLength (jsTrim ampReq.name) = 100 := by
    rw [hName, jsLength_mk, List.length_replicate]
  have hSubjLen : jsLength (jsTrim ampReq.subject) = 200 := by
    rw [hSubj, jsLength_mk, List.length_replicate]
  have hMsgLen : jsLength (jsTrim ampReq.message) = 2000 := by
    rw [hMsg, jsLength_mk, List.length_replicate]
  have hOk : (contactValidation ampReq).snd = [] := by
    rw [contactValidation_snd_nil_iff]
    refine ⟨?_, by decide, ?_, ?_⟩
    · simp only [nameOk, hNameLen]
      decide
    · simp only [subjectOk, hSubjLen]
      decide
    · simp only [messageOk, hMsgLen]
      decide
  refine ⟨hOk, hNameLen, hSubjLen, hMsgLen, ?_, ?_, ?_, by decide, by decide, by decide⟩
  · rw [contactValidation_fst]
    show jsLength (escape (jsTrim ampReq.name)) = 500
    rw [hName, escape_amp_len]
  · rw [contactValidation_fst]
    show jsLength (escape (jsTrim ampReq.subject)) = 1000
    rw [hSubj, escape_amp_len]
  · rw [contactValidation_fst]
    show jsLength (escape (jsTrim ampReq.message)) = 10000
    rw [hMsg, escape_amp_len]
